import Mathlib

/-!
Verification development for the ATO topology-optimization driver
(`src/src/ATO/utils/ATO_Optimizer.cpp`).

Modelling conventions:
* C++ `double` values are modelled as `ℚ`; the C library functions `pow`
  (used as `pow(be, _stabExponent)` with a real exponent) and `sqrt` are not
  rational-valued, so they are abstracted as function parameters (`powFn`,
  `sqrtFn`) of the definitions that use them.
* The communicator is modelled single-partition: `SumAll` of a local scalar is
  the identity, and local accumulation loops are list sums.
* `TEUCHOS_TEST_FOR_EXCEPTION` (a fatal throw) is modelled by returning `none`
  from an `Option`-valued function; a normal return is `some`.
-/

namespace ATO

/-- `ConvergenceTest::ComboType` (AND / OR combination of criteria). -/
inductive ComboType
| AND
| OR

/-- The six criterion variants registered by the `ConvergenceTest` constructor
(lines 453-476): `RelDeltaP`, `AbsDeltaP`, `RelDeltaF`, `AbsDeltaF`,
`RelRunningDF`, `AbsRunningDF`. -/
inductive CritKind
| relDeltaP
| absDeltaP
| relDeltaF
| absDeltaF
| relRunningDF
| absRunningDF

/-- Modelled from the spec: the running-average window size `nave` is a class
member declared in the header `ATO_Optimizer.hpp`, which is not under `src/`;
the spec fixes the running window at 10 samples ("window size fixed at 10
samples"). -/
def nave : ℕ := 10

/-- Runtime state of one criterion instance: its kind, its threshold
`conValue`, the baselines `f0`/`p0` seeded by `initNorm`, and the
running-average history `dF` with its maintained sum `runningDF`. -/
structure Crit where
  kind : CritKind
  conValue : ℚ
  f0 : ℚ
  p0 : ℚ
  dF : List ℚ
  runningDF : ℚ

/-- `ConTest::passed(delta_f, delta_p, write)` for each criterion variant
(lines 480-541), returning the status together with the (possibly mutated)
criterion state.  `AbsRunningDF` (lines 498-509) pushes `delta_f`, adds it to
`runningDF`, and when the history exceeds `nave` subtracts `*(dF.end()-nave)`,
i.e. the element at index `size - nave`; its status compares `runningDF`
itself (no `fabs`, no division by the sample count) against `conValue`.
`RelRunningDF` (lines 526-541) subtracts `dF[lastVal-nave]` with
`lastVal = size-1`, i.e. the element at index `size - 1 - nave`, and compares
`fabs(runningDF/f0)/nvals` against `conValue`, guarded by `f0 != 0`. -/
def Crit.passed (c : Crit) (delta_f delta_p : ℚ) : Bool × Crit :=
  match c.kind with
  | .absDeltaP => (decide (|delta_p| < c.conValue), c)
  | .absDeltaF => (decide (|delta_f| < c.conValue), c)
  | .relDeltaP =>
      ((if c.p0 ≠ 0 then decide (|delta_p / c.p0| < c.conValue) else false), c)
  | .relDeltaF =>
      ((if c.f0 ≠ 0 then decide (|delta_f / c.f0| < c.conValue) else false), c)
  | .absRunningDF =>
      let dF := c.dF ++ [delta_f]
      let run0 := c.runningDF + delta_f
      let run := if dF.length > nave then run0 - dF.getD (dF.length - nave) 0 else run0
      (decide (run < c.conValue), { c with dF := dF, runningDF := run })
  | .relRunningDF =>
      let dF := c.dF ++ [delta_f]
      let run0 := c.runningDF + delta_f
      let nvals0 := dF.length
      let lastVal := nvals0 - 1
      let run := if nvals0 > nave then run0 - dF.getD (lastVal - nave) 0 else run0
      let nvals := if nvals0 > nave then nave else nvals0
      ((if c.f0 ≠ 0 then decide (|run / c.f0| / (nvals : ℚ) < c.conValue) else false),
       { c with dF := dF, runningDF := run })

/-- The criterion-evaluation loop of `ConvergenceTest::isConverged`
(lines 384-387): evaluate every test in order, collecting the statuses and
the mutated criterion states. -/
def evalTests : List Crit → ℚ → ℚ → List Bool × List Crit
  | [], _, _ => ([], [])
  | c :: rest, df, dp =>
      let r := c.passed df dp
      let rs := evalTests rest df dp
      (r.1 :: rs.1, r.2 :: rs.2)

/-- The AND / OR combination of the criterion results (lines 389-395):
AND converges iff no result is `false`; OR converges iff some result is
`true`. -/
def combine : ComboType → List Bool → Bool
  | .AND, results => results.all id
  | .OR, results => results.any id

/-- `ConvergenceTest::isConverged(delta_f, delta_p, iter, myPID)`
(lines 370-422): returns `false` at `iter == 0`; otherwise evaluates the
criteria, combines them, forces `false` when `iter < minIterations`, and
forces `true` when `iter >= maxIterations` and the combined result was not
already `true`.  Returns the verdict and the mutated criterion states. -/
def isConverged (combo : ComboType) (minIterations maxIterations : Int)
    (tests : List Crit) (delta_f delta_p : ℚ) (iter : Int) : Bool × List Crit :=
  if iter = 0 then (false, tests)
  else
    let er := evalTests tests delta_f delta_p
    let conv0 := combine combo er.1
    let conv1 := if iter < minIterations then false else conv0
    ((if maxIterations ≤ iter ∧ conv1 = false then true else conv1), er.2)

/-- A freshly constructed criterion: the threshold comes from the
configuration (lines 453-476); the numeric state starts empty (baselines are
seeded later by `initNorm`, history starts empty — the member initialisation
lives in the header, and is irrelevant here because every theorem below
either quantifies over the state or uses an empty criteria list). -/
def mkCrit (k : CritKind) (conValue : ℚ) : Crit :=
  { kind := k, conValue := conValue, f0 := 0, p0 := 0, dF := [], runningDF := 0 }

/-- The criteria assembly of the `ConvergenceTest` constructor
(lines 453-476): each of the six named configuration parameters, when
present, appends one criterion, in source order. -/
def buildConTests (relP absP relF absF relRunF absRunF : Option ℚ) : List Crit :=
  (relP.toList.map (mkCrit .relDeltaP)) ++ (absP.toList.map (mkCrit .absDeltaP)) ++
  (relF.toList.map (mkCrit .relDeltaF)) ++ (absF.toList.map (mkCrit .absDeltaF)) ++
  (relRunF.toList.map (mkCrit .relRunningDF)) ++ (absRunF.toList.map (mkCrit .absRunningDF))

/-- Feeding a sequence of objective deltas through one criterion, keeping only
the mutated state (the statuses are discarded); used to examine the
running-average history maintenance. -/
def feedDeltas (c : Crit) (ds : List ℚ) : Crit :=
  ds.foldl (fun c d => (c.passed d 0).2) c

/-- One design-entry update of `Optimizer_OC::computeUpdatedTopology`
(lines 583-594; repeated verbatim at 634-645, 660-671 and 693-704 with the
multiplier `lam` being `vmid`, `lambda`, `plambda` and `vmid` respectively):
`be = -dfdp[i]/dvdp[i]/lam`, the unclamped update
`p_new = (p_old - offset)*pow(be, _stabExponent) + offset` (the real-exponent
`pow` is abstracted as `powFn`), then the move limit
`p_new = p_old + fabs(dval)/dval*_moveLimit` when `fabs(dval) > _moveLimit`,
then the clamps to `minDensity` and `maxDensity`. -/
def updateEntry (powFn : ℚ → ℚ) (moveLimit minDensity maxDensity offset lam : ℚ)
    (dfdp_i dvdp_i p_old : ℚ) : ℚ :=
  let be := -dfdp_i / dvdp_i / lam
  let p_new := (p_old - offset) * powFn be + offset
  let dval := p_new - p_old
  let p1 := if |dval| > moveLimit then p_old + |dval| / dval * moveLimit else p_new
  let p2 := if p1 < minDensity then minDensity else p1
  if p2 > maxDensity then maxDensity else p2

/-- The whole-vector topology update at multiplier `lam`: `updateEntry` applied
entrywise to `dfdp`, `dvdp` and `p_last`. -/
def updateTopo (powFn : ℚ → ℚ) (moveLimit minDensity maxDensity offset : ℚ)
    (dfdp dvdp p_last : List ℚ) (lam : ℚ) : List ℚ :=
  List.zipWith
    (fun dd p_old => updateEntry powFn moveLimit minDensity maxDensity offset lam dd.1 dd.2 p_old)
    (dfdp.zip dvdp) p_last

/-- Result of the recursive-bisection phase: the bracket `v1`/`v2`, the
`residRatio` recorded at a Newton-mode break, the last computed topology `p`
and volume `vol`, the iteration count, and whether the Newton-mode early
`break` (positive residual found) was taken. -/
structure BisectState where
  v1 : ℚ
  v2 : ℚ
  residRatio : ℚ
  p : List ℚ
  vol : ℚ
  niters : ℕ
  broke : Bool

/-- One pass of the recursive-bisection do/while loop of
`computeUpdatedTopology` (loop body, lines 578-619): set `vmid = (v2+v1)/2`,
update the topology and volume there, and then: in Newton mode a positive
residual records `residRatio = newResidual/prevResidual` (where
`prevResidual` is computed from the `vol = 0.0` reset at the top of the pass,
hence equals `0 - tgt`), sets `v1 = vmid` and breaks; otherwise the bracket
is narrowed (`v1 = vmid` on a positive residual, else `v2 = vmid`).  Returns
the state after the pass together with the do/while condition
`niters < volMaxIter && fabs(vol - tgt) > ctolAbs` (always false after the
Newton-mode `break`). -/
def bisectPass (topoAt : ℚ → List ℚ) (computeVol : List ℚ → ℚ) (tgt ctolAbs : ℚ)
    (useNewton : Bool) (volMaxIter : ℕ) (v1 v2 residRatio : ℚ) (niters : ℕ) :
    BisectState × Bool :=
  let vmid := (v2 + v1) / 2
  let p := topoAt vmid
  let vol := computeVol p
  let newResidual := vol - tgt
  if useNewton = true ∧ newResidual > 0 then
    (⟨vmid, v2, newResidual / (0 - tgt), p, vol, niters + 1, true⟩, false)
  else
    let v1' := if newResidual > 0 then vmid else v1
    let v2' := if newResidual > 0 then v2 else vmid
    let n' := niters + 1
    (⟨v1', v2', residRatio, p, vol, n', false⟩,
     decide (n' < volMaxIter ∧ |vol - tgt| > ctolAbs))

/-- The recursive-bisection do/while loop (lines 578-621; re-entered with
`useNewton = false` as the fallback loop at lines 688-719): iterate
`bisectPass` while its do/while condition holds.  `fuel` bounds the
recursion; callers pass `fuel = volMaxIter`, which the `niters < volMaxIter`
conjunct of the condition makes sufficient. -/
def bisectLoop (topoAt : ℚ → List ℚ) (computeVol : List ℚ → ℚ) (tgt ctolAbs : ℚ)
    (useNewton : Bool) (volMaxIter : ℕ) :
    ℕ → ℚ → ℚ → ℚ → ℕ → BisectState
  | 0, v1, v2, residRatio, niters =>
      (bisectPass topoAt computeVol tgt ctolAbs useNewton volMaxIter v1 v2 residRatio niters).1
  | f + 1, v1, v2, residRatio, niters =>
      let r := bisectPass topoAt computeVol tgt ctolAbs useNewton volMaxIter v1 v2 residRatio niters
      if r.2 then bisectLoop topoAt computeVol tgt ctolAbs useNewton volMaxIter f
          r.1.v1 r.1.v2 r.1.residRatio r.1.niters
      else r.1

/-- One pass of the Newton (secant) refinement do/while loop (loop body,
lines 633-679): evaluate the residual `f0` at `lambda`; if
`fabs(f0) < ctolAbs`, converged — exit with the `lambda` topology and volume;
otherwise evaluate `f1` at `lambda + epsilon`; if `f1 - f0 == 0`, break
non-converged — exit with the probe topology and volume (the probe update was
the last one executed); otherwise continue with
`lambda - epsilon*f0/(f1-f0)`, also carrying the probe topology and volume
for a later budget-exhausted exit. -/
def newtonPass (topoAt : ℚ → List ℚ) (computeVol : List ℚ → ℚ) (tgt ctolAbs epsilon lam : ℚ) :
    (List ℚ × ℚ × Bool) ⊕ (ℚ × List ℚ × ℚ) :=
  let p := topoAt lam
  let vol := computeVol p
  let f0 := vol - tgt
  if |f0| < ctolAbs then Sum.inl (p, vol, true)
  else
    let plambda := lam + epsilon
    let p2 := topoAt plambda
    let vol2 := computeVol p2
    let f1 := vol2 - tgt
    if f1 - f0 = 0 then Sum.inl (p2, vol2, false)
    else Sum.inr (lam - epsilon * f0 / (f1 - f0), p2, vol2)

/-- The Newton refinement do/while loop (lines 633-680): iterate `newtonPass`
while `niters < newtonMaxIters` (the count is incremented after each full
pass); on exhaustion exit non-converged with the last probe topology and
volume.  `epsilon` is fixed before the loop.  `fuel` bounds the recursion;
callers pass `fuel = newtonMaxIters`, sufficient by the same argument as for
`bisectLoop`. -/
def newtonLoop (topoAt : ℚ → List ℚ) (computeVol : List ℚ → ℚ) (tgt ctolAbs : ℚ)
    (newtonMaxIters : ℕ) (epsilon : ℚ) :
    ℕ → ℚ → ℕ → List ℚ × ℚ × Bool
  | 0, lam, _ =>
      match newtonPass topoAt computeVol tgt ctolAbs epsilon lam with
      | Sum.inl done => done
      | Sum.inr (_, p2, vol2) => (p2, vol2, false)
  | f + 1, lam, niters =>
      match newtonPass topoAt computeVol tgt ctolAbs epsilon lam with
      | Sum.inl done => done
      | Sum.inr (lam', p2, vol2) =>
          if niters + 1 < newtonMaxIters then
            newtonLoop topoAt computeVol tgt ctolAbs newtonMaxIters epsilon f lam' (niters + 1)
          else (p2, vol2, false)

/-- The multiplier search of `Optimizer_OC::computeUpdatedTopology`
(lines 547-722), up to but excluding the final acceptable-tolerance check:
`offset = minDensity - 0.01*(maxDensity - minDensity)`, the initial upper
estimate `v2 = -10*Σdfdp/Σdvdp` (global sums modelled as list sums on one
partition), the bisection phase from `v1 = 0`, and — when `_useNewtonSearch`
— the Newton phase started from `lambda = (residRatio*v2 - v1)/(residRatio -
1)` with `epsilon = lambda*1e-5` and `newtonMaxIters = niters + 10` (skipped
unless `lambda > 0`), followed, when the Newton phase did not converge, by
the fallback bisection restarted at `niters = 0` from the bracket the first
bisection left.  Returns the final topology and volume. -/
def ocSearch (powFn : ℚ → ℚ) (computeVol : List ℚ → ℚ) (dfdp dvdp p_last : List ℚ)
    (moveLimit minDensity maxDensity : ℚ) (volConstraint optVolume volConvTol : ℚ)
    (volMaxIter : ℕ) (useNewton : Bool) : List ℚ × ℚ :=
  let offset := minDensity - (1 / 100) * (maxDensity - minDensity)
  let topoAt : ℚ → List ℚ :=
    fun lam => updateTopo powFn moveLimit minDensity maxDensity offset dfdp dvdp p_last lam
  let tgt := volConstraint * optVolume
  let ctolAbs := volConvTol * optVolume
  let v2 := -10 * dfdp.sum / dvdp.sum
  let b := bisectLoop topoAt computeVol tgt ctolAbs useNewton volMaxIter volMaxIter 0 v2 0 0
  if useNewton then
    let newtonMaxIters := b.niters + 10
    let lam := (b.residRatio * b.v2 - b.v1) / (b.residRatio - 1)
    let epsilon := lam * (1 / 100000)
    let nres :=
      if lam > 0 then
        newtonLoop topoAt computeVol tgt ctolAbs newtonMaxIters epsilon newtonMaxIters lam b.niters
      else (b.p, b.vol, false)
    if nres.2.2 then (nres.1, nres.2.1)
    else
      let fb := bisectLoop topoAt computeVol tgt ctolAbs false volMaxIter volMaxIter b.v1 b.v2 0 0
      (fb.p, fb.vol)
  else (b.p, b.vol)

/-- `Optimizer_OC::computeUpdatedTopology` (lines 547-732): the multiplier
search followed by the final check (lines 724-728), which throws the fatal
invalid-parameter exception — modelled as `none` — exactly when
`fabs(vol - _volConstraint*_optVolume) > _volAccpTol*_optVolume`, and
otherwise returns normally with the updated topology and its volume. -/
def computeUpdatedTopology (powFn : ℚ → ℚ) (computeVol : List ℚ → ℚ)
    (dfdp dvdp p_last : List ℚ) (moveLimit minDensity maxDensity : ℚ)
    (volConstraint optVolume volConvTol volAccpTol : ℚ)
    (volMaxIter : ℕ) (useNewton : Bool) : Option (List ℚ × ℚ) :=
  let r := ocSearch powFn computeVol dfdp dvdp p_last moveLimit minDensity maxDensity
      volConstraint optVolume volConvTol volMaxIter useNewton
  if |r.2 - volConstraint * optVolume| > volAccpTol * optVolume then none
  else some r

/-- The `Volume Enforcement` sublist read by the `Optimizer_OC` constructor
(lines 102-127): required `Convergence Tolerance`, `Target Volume Fraction`
and `Maximum Iterations`; optional `Minimum/Maximum Volume Fraction`
(defaults 0.1 / 1.0), `Acceptable Tolerance` (defaults to the convergence
tolerance) and `Use Newton Search` (defaults true). -/
structure VolEnfParams where
  convergenceTolerance : ℚ
  targetVolumeFraction : ℚ
  maximumIterations : Int
  minimumVolumeFraction : Option ℚ
  maximumVolumeFraction : Option ℚ
  acceptableTolerance : Option ℚ
  useNewtonSearch : Option Bool

/-- The volume-enforcement state the `Optimizer_OC` constructor initialises. -/
structure OCVolState where
  volConvTol : ℚ
  volConstraint : ℚ
  volMaxIter : Int
  minVolume : ℚ
  maxVolume : ℚ
  volAccpTol : ℚ
  useNewtonSearch : Bool

/-- The `Optimizer_OC` constructor's volume-enforcement initialisation
(lines 102-127).  `_volConstraint` is taken directly from
`Target Volume Fraction`; no check against `[_minVolume, _maxVolume]` is
performed. -/
def initOCVolState (vp : VolEnfParams) : OCVolState :=
  { volConvTol := vp.convergenceTolerance
    volConstraint := vp.targetVolumeFraction
    volMaxIter := vp.maximumIterations
    minVolume := vp.minimumVolumeFraction.getD (1 / 10)
    maxVolume := vp.maximumVolumeFraction.getD 1
    volAccpTol := vp.acceptableTolerance.getD vp.convergenceTolerance
    useNewtonSearch := vp.useNewtonSearch.getD true }

/-- The `_volConstraint` adaptation of one outer iteration of
`Optimizer_OC::Optimize` (lines 293-336): nothing happens when `g == 0.0`;
otherwise some secant step `deltavRaw` is computed (its two computations —
adjoint finite difference or averaged empirical slope — produce an arbitrary
rational, abstracted here as an input), then the step is clamped to
`_dvolLimit = 0.1*_volConstraint` via `deltav/fabs(deltav)*_dvolLimit`, added,
and the result clamped into `[_minVolume, _maxVolume]`. -/
def volConstraintUpdate (minVolume maxVolume : ℚ) (g deltavRaw vc : ℚ) : ℚ :=
  if g ≠ 0 then
    let dvolLimit := (1 / 10) * vc
    let deltav := if |deltavRaw| > dvolLimit then deltavRaw / |deltavRaw| * dvolLimit else deltavRaw
    let v1 := vc + deltav
    let v2 := if v1 < minVolume then minVolume else v1
    if v2 > maxVolume then maxVolume else v2
  else vc

/-- Iterating the `_volConstraint` adaptation over a run: each outer iteration
contributes its constraint residual `g` and raw secant step. -/
def volConstraintIter (minVolume maxVolume : ℚ) (steps : List (ℚ × ℚ)) (vc : ℚ) : ℚ :=
  steps.foldl (fun v s => volConstraintUpdate minVolume maxVolume s.1 s.2 v) vc

/-- `Optimizer::computeDiffNorm(p, p_last, n)` (lines 204-222): the sum of
squared entry differences (the `SumAll` reduction is the identity on one
partition, the only configuration the NLopt backend admits), then
`sqrt` — abstracted as `sqrtFn` — guarded to return 0 for a non-positive
reduced sum. -/
def computeDiffNorm (sqrtFn : ℚ → ℚ) (p p_last : List ℚ) : ℚ :=
  let norm := (List.zipWith (fun a b => (a - b) ^ 2) p p_last).sum
  if norm > 0 then sqrtFn norm else 0

/-- The mutable state of `Optimizer_NLopt` relevant to its objective
callback: the stored previous design `p_last` and objective values `f`,
`f_last`. -/
structure NLoptState where
  p_last : List ℚ
  f : ℚ
  f_last : ℚ

/-- `Optimizer_NLopt::evaluate_backend(n, x, grad)` (lines 824-853), in source
order: `f_last = f`; `memcpy(p_last, x)`; the objective evaluation sets
`f` (the externally computed value `fNew`); `delta_f = f - f_last` (reduced,
identity on one partition); `delta_p = computeDiffNorm(x, p_last)` — computed
against the `p_last` that was just overwritten with `x`.  Returns the deltas
fed to `convergenceChecker->isConverged` together with the new state. -/
def evaluate_backend (sqrtFn : ℚ → ℚ) (st : NLoptState) (x : List ℚ) (fNew : ℚ) :
    (ℚ × ℚ) × NLoptState :=
  let st1 : NLoptState := { st with f_last := st.f, p_last := x }
  let st2 : NLoptState := { st1 with f := fNew }
  let delta_f := st2.f - st2.f_last
  let delta_p := computeDiffNorm sqrtFn x st2.p_last
  ((delta_f, delta_p), st2)

/-- C3 counterexample: with `maxIterations = 0`, at `iter = 0` we have
`iter >= maxIterations`, yet `isConverged` returns not-converged (the
`iter == 0` early return takes precedence over the iteration-limit branch),
refuting the claim that `iter >= maxIterations` always yields converged. -/
theorem isConverged_zero_iter_at_limit :
    (0 : Int) ≥ 0 ∧ (isConverged ComboType.OR 0 0 [] 0 0 0).1 = false := by
  refine ⟨le_refl 0, ?_⟩
  simp [isConverged]

/-- C3 (amended): `isConverged` always returns not-converged at `iter = 0`,
and always returns converged when `iter >= maxIterations` provided
`iter >= 1` (the `iter == 0` early return wins when both apply). -/
theorem isConverged_iter_window (combo : ComboType) (minI maxI : Int)
    (tests : List Crit) (df dp : ℚ) (iter : Int) :
    (isConverged combo minI maxI tests df dp 0).1 = false ∧
    (1 ≤ iter → maxI ≤ iter → (isConverged combo minI maxI tests df dp iter).1 = true) := by
  constructor
  · simp [isConverged]
  · intro h1 h2
    have hne : iter ≠ 0 := by omega
    simp only [isConverged, if_neg hne]
    by_cases hmin : iter < minI
    · simp [hmin, h2]
    · simp only [if_neg hmin]
      cases hX : combine combo (evalTests tests df dp).1 with
      | false => simp [hX, h2]
      | true => simp [hX]

/-- C3 amended-theorem witness at `iter = 5 >= maxIterations = 3`. -/
theorem isConverged_iter_window_witness :
    (isConverged ComboType.AND 0 3 [] 0 0 5).1 = true :=
  (isConverged_iter_window ComboType.AND 0 3 [] 0 0 5).2 (by norm_num) (by norm_num)

/-- C7 counterexample: with `minIterations = 5 > maxIterations = 2`, at
`iter = 3 < minIterations` the iteration-limit branch overrides the
min-iterations guard and `isConverged` returns converged. -/
theorem isConverged_limit_overrides_min :
    (3 : Int) < 5 ∧ (isConverged ComboType.OR 5 2 [] 0 0 3).1 = true := by
  refine ⟨by norm_num, ?_⟩
  norm_num [isConverged, evalTests, combine]

/-- C7 (amended): `isConverged` never reports convergence while
`iter < minIterations`, provided also `iter < maxIterations` (when
`iter >= maxIterations`, the iteration-limit branch overrides the
min-iterations guard). -/
theorem isConverged_min_guard (combo : ComboType) (minI maxI : Int)
    (tests : List Crit) (df dp : ℚ) (iter : Int)
    (h1 : iter < minI) (h2 : iter < maxI) :
    (isConverged combo minI maxI tests df dp iter).1 = false := by
  by_cases h0 : iter = 0
  · simp [isConverged, h0]
  · simp only [isConverged, if_neg h0]
    simp [h1, not_le.mpr h2]

/-- C7 amended-theorem witness at `iter = 2 < minIterations = 5`,
`maxIterations = 9`. -/
theorem isConverged_min_guard_witness :
    (isConverged ComboType.OR 5 9 [] 0 0 2).1 = false :=
  isConverged_min_guard ComboType.OR 5 9 [] 0 0 2 (by norm_num) (by norm_num)

/-- C4: `AbsRunningDF` evicts the wrong sample. Feeding the 11 deltas
`100, 0, ..., 0` leaves `AbsRunningDF.runningDF = 100` although the sum of
the 10 most recent deltas is 0 (the code subtracts `*(dF.end()-nave)`, the
element at index `size - nave`, instead of the oldest window sample at
index `size - 1 - nave`); `RelRunningDF`, which subtracts
`dF[lastVal - nave]`, correctly yields 0 on the same input. -/
theorem absRunningDF_wrong_eviction :
    (feedDeltas (mkCrit CritKind.absRunningDF 1) (100 :: List.replicate 10 0)).runningDF = 100 ∧
    (feedDeltas (mkCrit CritKind.relRunningDF 1) (100 :: List.replicate 10 0)).runningDF = 0 ∧
    ((100 :: List.replicate 10 0).drop 1).sum = 0 := by
  norm_num [feedDeltas, mkCrit, Crit.passed, nave, List.replicate, List.getD]

/-- C9: every relative criterion whose baseline is exactly zero reports
not-passed, for every delta: `RelDeltaP` with `p0 = 0`, and `RelDeltaF` /
`RelRunningDF` with `f0 = 0`. -/
theorem relative_zero_baseline_never_passes (c : Crit) (df dp : ℚ)
    (h : (c.kind = CritKind.relDeltaP ∧ c.p0 = 0) ∨
         ((c.kind = CritKind.relDeltaF ∨ c.kind = CritKind.relRunningDF) ∧ c.f0 = 0)) :
    (c.passed df dp).1 = false := by
  rcases h with ⟨hk, hb⟩ | ⟨hk | hk, hb⟩ <;> simp [Crit.passed, hk, hb]

/-- C9 witness: `RelDeltaP` with baseline `p0 = 0` and nonzero delta 7. -/
theorem relative_zero_baseline_never_passes_witness :
    ((Crit.mk CritKind.relDeltaP (1 / 2) 3 0 [] 0).passed 0 7).1 = false :=
  relative_zero_baseline_never_passes (Crit.mk CritKind.relDeltaP (1 / 2) 3 0 [] 0) 0 7
    (Or.inl ⟨rfl, rfl⟩)

/-- C10: for a `ConvergenceTest` built with none of the six criterion
parameters present (empty criteria list), with combinator AND the check
returns converged for every `iter >= 1` with `iter >= minIterations` (the
AND over the empty set is vacuously true), while with combinator OR it
returns converged only once `iter >= maxIterations`. -/
theorem empty_criteria_and_or (minI maxI : Int) (df dp : ℚ) (iter : Int) :
    ((1 ≤ iter ∧ minI ≤ iter) →
      (isConverged ComboType.AND minI maxI
        (buildConTests none none none none none none) df dp iter).1 = true) ∧
    ((isConverged ComboType.OR minI maxI
        (buildConTests none none none none none none) df dp iter).1 = true →
      maxI ≤ iter) := by
  have hb : buildConTests none none none none none none = [] := rfl
  rw [hb]
  constructor
  · rintro ⟨h1, h2⟩
    have hne : iter ≠ 0 := by omega
    simp [isConverged, if_neg hne, evalTests, combine, not_lt.mpr h2]
  · intro h
    by_cases h0 : iter = 0
    · simp [isConverged, h0] at h
    · simp only [isConverged, if_neg h0, evalTests, combine] at h
      by_cases hmax : maxI ≤ iter
      · exact hmax
      · simp [hmax] at h

/-- C10 witness: AND part at `iter = 2`, `minIterations = 1`,
`maxIterations = 100`. -/
theorem empty_criteria_and_or_witness :
    (isConverged ComboType.AND 1 100
      (buildConTests none none none none none none) 0 0 2).1 = true :=
  (empty_criteria_and_or 1 100 0 0 2).1 ⟨by norm_num, by norm_num⟩

/-- C2: in every OC design-entry update (the identical clamp code of the
bisection, Newton, probe and fallback phases), given
`p_last[i] ∈ [minDensity, maxDensity]` and `moveLimit ≥ 0`, the updated entry
obeys both the move limit `p_old - moveLimit ≤ p_new ≤ p_old + moveLimit` and
the bounds `minDensity ≤ p_new ≤ maxDensity`, for every (finite) unclamped
update — `powFn`, and with it the unclamped value, is arbitrary. -/
theorem updateEntry_move_limit_and_bounds (powFn : ℚ → ℚ)
    (moveLimit minDensity maxDensity offset lam dfdp_i dvdp_i p_old : ℚ)
    (hlo : minDensity ≤ p_old) (hhi : p_old ≤ maxDensity) (hml : 0 ≤ moveLimit) :
    (p_old - moveLimit ≤
        updateEntry powFn moveLimit minDensity maxDensity offset lam dfdp_i dvdp_i p_old ∧
      updateEntry powFn moveLimit minDensity maxDensity offset lam dfdp_i dvdp_i p_old ≤
        p_old + moveLimit) ∧
    (minDensity ≤
        updateEntry powFn moveLimit minDensity maxDensity offset lam dfdp_i dvdp_i p_old ∧
      updateEntry powFn moveLimit minDensity maxDensity offset lam dfdp_i dvdp_i p_old ≤
        maxDensity) := by
  simp only [updateEntry]
  set pn := (p_old - offset) * powFn (-dfdp_i / dvdp_i / lam) + offset with hpn
  by_cases hmv : |pn - p_old| > moveLimit
  · have hd0 : pn - p_old ≠ 0 := by
      intro h
      rw [h] at hmv
      simp only [abs_zero] at hmv
      linarith
    rcases hd0.lt_or_lt with hd | hd
    · have hs : |pn - p_old| / (pn - p_old) = -1 := by
        rw [abs_of_neg hd, neg_div, div_self hd0]
      rw [if_pos hmv, hs]
      split_ifs <;> refine ⟨⟨by linarith, by linarith⟩, by linarith, by linarith⟩
    · have hs : |pn - p_old| / (pn - p_old) = 1 := by
        rw [abs_of_pos hd, div_self hd0]
      rw [if_pos hmv, hs]
      split_ifs <;> refine ⟨⟨by linarith, by linarith⟩, by linarith, by linarith⟩
  · have habs := abs_le.mp (not_lt.mp hmv)
    rw [if_neg hmv]
    split_ifs <;>
      refine ⟨⟨by linarith [habs.1, habs.2], by linarith [habs.1, habs.2]⟩,
        by linarith [habs.1, habs.2], by linarith [habs.1, habs.2]⟩

/-- C2 witness: `p_old = 1/2`, bounds `[0, 1]`, `moveLimit = 1/5`,
multiplier 5, sensitivities `1` and `-1`, `powFn` the identity: the update
is move-limited and lands at `3/10`, inside both intervals. -/
theorem updateEntry_move_limit_and_bounds_witness :
    ((1 : ℚ) / 2 - 1 / 5 ≤
        updateEntry (fun q => q) (1 / 5) 0 1 (-1 / 100) 5 1 (-1) (1 / 2) ∧
      updateEntry (fun q => q) (1 / 5) 0 1 (-1 / 100) 5 1 (-1) (1 / 2) ≤
        (1 : ℚ) / 2 + 1 / 5) ∧
    ((0 : ℚ) ≤ updateEntry (fun q => q) (1 / 5) 0 1 (-1 / 100) 5 1 (-1) (1 / 2) ∧
      updateEntry (fun q => q) (1 / 5) 0 1 (-1 / 100) 5 1 (-1) (1 / 2) ≤ 1) :=
  updateEntry_move_limit_and_bounds (fun q => q) (1 / 5) 0 1 (-1 / 100) 5 1 (-1) (1 / 2)
    (by norm_num) (by norm_num) (by norm_num)

/-- C5: the design-change delta that `Optimizer_NLopt::evaluate_backend`
feeds to `isConverged` is always 0, for every state, input design and
objective value — `p_last` is overwritten with `x` before
`computeDiffNorm(x, p_last)` — and in particular at the concrete failing
input (previous design `[0]`, callback design `[5]`) the fed delta is 0 while
the squared distance between the two invocations' designs is 25, so the
genuine per-invocation design delta is nonzero. -/
theorem nlopt_delta_p_always_zero :
    (∀ (sqrtFn : ℚ → ℚ) (st : NLoptState) (x : List ℚ) (fNew : ℚ),
        ((evaluate_backend sqrtFn st x fNew).1).2 = 0) ∧
    ((evaluate_backend (fun q => q) ⟨[0], 0, 0⟩ [5] 1).1).2 = 0 ∧
    computeDiffNorm (fun q => q) [5] [0] = 25 := by
  have hz : ∀ x : List ℚ, (List.zipWith (fun a b => (a - b) ^ 2) x x).sum = 0 := by
    intro x
    induction x with
    | nil => simp
    | cons a t ih => simp [ih]
  have hmain : ∀ (sqrtFn : ℚ → ℚ) (st : NLoptState) (x : List ℚ) (fNew : ℚ),
      ((evaluate_backend sqrtFn st x fNew).1).2 = 0 := by
    intro sqrtFn st x fNew
    simp [evaluate_backend, computeDiffNorm, hz]
  refine ⟨hmain, hmain _ _ _ _, ?_⟩
  norm_num [computeDiffNorm]

/-- C6 counterexample: a configuration with `Target Volume Fraction = 1/20`
and the default bounds (`_minVolume = 1/10`, `_maxVolume = 1`) constructs an
optimizer whose `_volConstraint` is below `_minVolume`: the constructor
performs no clamp, so the invariant does not hold of the configured value. -/
theorem volConstraint_init_outside_bounds :
    ¬((initOCVolState ⟨1 / 100, 1 / 20, 20, none, none, none, none⟩).minVolume ≤
        (initOCVolState ⟨1 / 100, 1 / 20, 20, none, none, none, none⟩).volConstraint ∧
      (initOCVolState ⟨1 / 100, 1 / 20, 20, none, none, none, none⟩).volConstraint ≤
        (initOCVolState ⟨1 / 100, 1 / 20, 20, none, none, none, none⟩).maxVolume) := by
  norm_num [initOCVolState]

/-- C6 (amended): provided `_minVolume ≤ _maxVolume` and the configured
`Target Volume Fraction` itself lies in `[_minVolume, _maxVolume]` (the
constructor does not check this), `_volConstraint` stays in
`[_minVolume, _maxVolume]` across every outer-iteration secant adaptation:
each adaptation clamps its result into the interval, and iterations with
`g = 0` leave the value unchanged. -/
theorem volConstraint_clamped_invariant (minV maxV vc : ℚ) (steps : List (ℚ × ℚ))
    (hmm : minV ≤ maxV) (h1 : minV ≤ vc) (h2 : vc ≤ maxV) :
    minV ≤ volConstraintIter minV maxV steps vc ∧
      volConstraintIter minV maxV steps vc ≤ maxV := by
  induction steps generalizing vc with
  | nil => exact ⟨h1, h2⟩
  | cons s rest ih =>
      have hstep : minV ≤ volConstraintUpdate minV maxV s.1 s.2 vc ∧
          volConstraintUpdate minV maxV s.1 s.2 vc ≤ maxV := by
        simp only [volConstraintUpdate]
        split_ifs <;> exact ⟨by linarith, by linarith⟩
      have hcons : volConstraintIter minV maxV (s :: rest) vc =
          volConstraintIter minV maxV rest (volConstraintUpdate minV maxV s.1 s.2 vc) := rfl
      rw [hcons]
      exact ih _ hstep.1 hstep.2

/-- C6 amended-theorem witness: bounds `[1/10, 1]`, initial target `1/2`,
two adaptations (one with `g ≠ 0` and an oversized raw step, one with
`g = 0`). -/
theorem volConstraint_clamped_invariant_witness :
    (1 : ℚ) / 10 ≤ volConstraintIter (1 / 10) 1 [(1, 5), (0, 2)] (1 / 2) ∧
      volConstraintIter (1 / 10) 1 [(1, 5), (0, 2)] (1 / 2) ≤ 1 :=
  volConstraint_clamped_invariant (1 / 10) 1 (1 / 2) [(1, 5), (0, 2)]
    (by norm_num) (by norm_num) (by norm_num)

/-- C8: an outer iteration whose secondary-constraint residual `g` is exactly
0 leaves `_volConstraint` unchanged (the whole adaptation block is guarded by
`g != 0.0`), and hence a run in which `g = 0` at every iteration keeps the
initial `_volConstraint` across all outer iterations. -/
theorem volConstraint_unchanged_when_g_zero (minV maxV vc : ℚ) (steps : List (ℚ × ℚ))
    (h : ∀ s ∈ steps, s.1 = 0) :
    (∀ d, volConstraintUpdate minV maxV 0 d vc = vc) ∧
      volConstraintIter minV maxV steps vc = vc := by
  constructor
  · intro d
    simp [volConstraintUpdate]
  · revert h
    induction steps generalizing vc with
    | nil => intro _; rfl
    | cons s rest ih =>
        intro h
        have hs : s.1 = 0 := h s (by simp)
        have hupd : volConstraintUpdate minV maxV s.1 s.2 vc = vc := by
          rw [hs]
          simp [volConstraintUpdate]
        calc volConstraintIter minV maxV (s :: rest) vc
            = volConstraintIter minV maxV rest (volConstraintUpdate minV maxV s.1 s.2 vc) := rfl
          _ = volConstraintIter minV maxV rest vc := by rw [hupd]
          _ = vc := ih vc (fun x hx => h x (by simp [hx]))

/-- C8 witness: two outer iterations with `g = 0` leave `_volConstraint`
at its initial value `1/2`. -/
theorem volConstraint_unchanged_when_g_zero_witness :
    (∀ d, volConstraintUpdate (1 / 10) 1 0 d (1 / 2) = 1 / 2) ∧
      volConstraintIter (1 / 10) 1 [(0, 5), (0, -3)] (1 / 2) = 1 / 2 :=
  volConstraint_unchanged_when_g_zero (1 / 10) 1 (1 / 2) [(0, 5), (0, -3)]
    (by norm_num)

/-- Every bisection pass leaves `vol` equal to the volume of the topology it
just computed. -/
theorem bisectPass_vol (topoAt : ℚ → List ℚ) (computeVol : List ℚ → ℚ) (tgt ctolAbs : ℚ)
    (useNewton : Bool) (volMaxIter : ℕ) (v1 v2 residRatio : ℚ) (niters : ℕ) :
    (bisectPass topoAt computeVol tgt ctolAbs useNewton volMaxIter v1 v2 residRatio niters).1.vol =
      computeVol
        (bisectPass topoAt computeVol tgt ctolAbs useNewton volMaxIter v1 v2 residRatio
          niters).1.p := by
  simp only [bisectPass]
  split_ifs <;> rfl

/-- The bisection loop leaves `vol` equal to the volume of the topology it
last computed. -/
theorem bisectLoop_vol (topoAt : ℚ → List ℚ) (computeVol : List ℚ → ℚ) (tgt ctolAbs : ℚ)
    (useNewton : Bool) (volMaxIter : ℕ) :
    ∀ (fuel : ℕ) (v1 v2 residRatio : ℚ) (niters : ℕ),
      (bisectLoop topoAt computeVol tgt ctolAbs useNewton volMaxIter fuel v1 v2 residRatio
          niters).vol =
        computeVol
          (bisectLoop topoAt computeVol tgt ctolAbs useNewton volMaxIter fuel v1 v2 residRatio
            niters).p := by
  intro fuel
  induction fuel with
  | zero =>
      intro v1 v2 rr n
      simpa only [bisectLoop] using
        bisectPass_vol topoAt computeVol tgt ctolAbs useNewton volMaxIter v1 v2 rr n
  | succ f ih =>
      intro v1 v2 rr n
      simp only [bisectLoop]
      by_cases h :
          (bisectPass topoAt computeVol tgt ctolAbs useNewton volMaxIter v1 v2 rr n).2 = true
      · rw [if_pos h]
        apply ih
      · rw [if_neg h]
        exact bisectPass_vol topoAt computeVol tgt ctolAbs useNewton volMaxIter v1 v2 rr n

/-- A converged or broken-out Newton pass returns the volume of the topology
it returns. -/
theorem newtonPass_inl_vol (topoAt : ℚ → List ℚ) (computeVol : List ℚ → ℚ)
    (tgt ctolAbs epsilon lam : ℚ) :
    ∀ p vol c, newtonPass topoAt computeVol tgt ctolAbs epsilon lam = Sum.inl (p, vol, c) →
      vol = computeVol p := by
  intro p vol c h
  simp only [newtonPass] at h
  split_ifs at h <;>
    first
    | exact Sum.noConfusion h
    | (simp only [Sum.inl.injEq, Prod.mk.injEq] at h
       rw [← h.2.1, h.1])

/-- A continuing Newton pass carries the volume of the probe topology it
carries. -/
theorem newtonPass_inr_vol (topoAt : ℚ → List ℚ) (computeVol : List ℚ → ℚ)
    (tgt ctolAbs epsilon lam : ℚ) :
    ∀ l p2 v2, newtonPass topoAt computeVol tgt ctolAbs epsilon lam = Sum.inr (l, p2, v2) →
      v2 = computeVol p2 := by
  intro l p2 v2 h
  simp only [newtonPass] at h
  split_ifs at h <;>
    first
    | exact Sum.noConfusion h
    | (simp only [Sum.inr.injEq, Prod.mk.injEq] at h
       rw [← h.2.2, h.2.1])

set_option maxHeartbeats 1000000 in
/-- The Newton loop leaves `vol` equal to the volume of the topology it last
computed. -/
theorem newtonLoop_vol (topoAt : ℚ → List ℚ) (computeVol : List ℚ → ℚ) (tgt ctolAbs : ℚ)
    (newtonMaxIters : ℕ) (epsilon : ℚ) :
    ∀ (fuel : ℕ) (lam : ℚ) (niters : ℕ),
      (newtonLoop topoAt computeVol tgt ctolAbs newtonMaxIters epsilon fuel lam niters).2.1 =
        computeVol
          (newtonLoop topoAt computeVol tgt ctolAbs newtonMaxIters epsilon fuel lam niters).1 := by
  intro fuel
  induction fuel with
  | zero =>
      intro lam n
      simp only [newtonLoop]
      rcases hp : newtonPass topoAt computeVol tgt ctolAbs epsilon lam with d | ⟨l, p2, v2⟩
      · obtain ⟨p, vol, c⟩ := d
        exact newtonPass_inl_vol topoAt computeVol tgt ctolAbs epsilon lam p vol c hp
      · exact newtonPass_inr_vol topoAt computeVol tgt ctolAbs epsilon lam l p2 v2 hp
  | succ f ih =>
      intro lam n
      simp only [newtonLoop]
      rcases hp : newtonPass topoAt computeVol tgt ctolAbs epsilon lam with d | ⟨l, p2, v2⟩
      · obtain ⟨p, vol, c⟩ := d
        exact newtonPass_inl_vol topoAt computeVol tgt ctolAbs epsilon lam p vol c hp
      · dsimp only
        by_cases hn : n + 1 < newtonMaxIters
        · rw [if_pos hn]
          apply ih
        · rw [if_neg hn]
          exact newtonPass_inr_vol topoAt computeVol tgt ctolAbs epsilon lam l p2 v2 hp

/-- The multiplier search returns the volume of the topology it returns,
whichever phase (bisection, Newton, fallback bisection) produced it. -/
theorem ocSearch_vol (powFn : ℚ → ℚ) (computeVol : List ℚ → ℚ) (dfdp dvdp p_last : List ℚ)
    (moveLimit minDensity maxDensity volConstraint optVolume volConvTol : ℚ)
    (volMaxIter : ℕ) (useNewton : Bool) :
    (ocSearch powFn computeVol dfdp dvdp p_last moveLimit minDensity maxDensity volConstraint
        optVolume volConvTol volMaxIter useNewton).2 =
      computeVol
        (ocSearch powFn computeVol dfdp dvdp p_last moveLimit minDensity maxDensity volConstraint
          optVolume volConvTol volMaxIter useNewton).1 := by
  simp only [ocSearch]
  split_ifs with hN hlam hconv <;> dsimp only <;>
    first
    | apply newtonLoop_vol
    | apply bisectLoop_vol

/-- C1: `computeUpdatedTopology` returns normally only when the final volume
satisfies `|vol - _volConstraint*_optVolume| <= _volAccpTol*_optVolume`
(and that volume is the volume of the topology it returns), and it raises
the fatal invalid-configuration error (modelled as `none`) exactly when the
acceptable-tolerance check fails on the volume the multiplier search
reached. -/
theorem computeUpdatedTopology_volume_enforced (powFn : ℚ → ℚ) (computeVol : List ℚ → ℚ)
    (dfdp dvdp p_last : List ℚ) (moveLimit minDensity maxDensity : ℚ)
    (volConstraint optVolume volConvTol volAccpTol : ℚ) (volMaxIter : ℕ) (useNewton : Bool) :
    (∀ p vol,
        computeUpdatedTopology powFn computeVol dfdp dvdp p_last moveLimit minDensity maxDensity
            volConstraint optVolume volConvTol volAccpTol volMaxIter useNewton = some (p, vol) →
          |vol - volConstraint * optVolume| ≤ volAccpTol * optVolume ∧ vol = computeVol p) ∧
    (computeUpdatedTopology powFn computeVol dfdp dvdp p_last moveLimit minDensity maxDensity
          volConstraint optVolume volConvTol volAccpTol volMaxIter useNewton = none ↔
        |(ocSearch powFn computeVol dfdp dvdp p_last moveLimit minDensity maxDensity volConstraint
            optVolume volConvTol volMaxIter useNewton).2 - volConstraint * optVolume| >
          volAccpTol * optVolume) := by
  have hvol := ocSearch_vol powFn computeVol dfdp dvdp p_last moveLimit minDensity maxDensity
    volConstraint optVolume volConvTol volMaxIter useNewton
  constructor
  · intro p vol h
    simp only [computeUpdatedTopology] at h
    by_cases hc : |(ocSearch powFn computeVol dfdp dvdp p_last moveLimit minDensity maxDensity
        volConstraint optVolume volConvTol volMaxIter useNewton).2 - volConstraint * optVolume| >
        volAccpTol * optVolume
    · rw [if_pos hc] at h
      exact Option.noConfusion h
    · rw [if_neg hc] at h
      have h' := Option.some.inj h
      have hp : (ocSearch powFn computeVol dfdp dvdp p_last moveLimit minDensity maxDensity
          volConstraint optVolume volConvTol volMaxIter useNewton).1 = p := by rw [h']
      have hv : (ocSearch powFn computeVol dfdp dvdp p_last moveLimit minDensity maxDensity
          volConstraint optVolume volConvTol volMaxIter useNewton).2 = vol := by rw [h']
      refine ⟨?_, ?_⟩
      · rw [← hv]
        exact not_lt.mp hc
      · rw [← hv, ← hp]
        exact hvol
  · simp only [computeUpdatedTopology]
    split_ifs with hc
    · simpa using hc
    · simp [hc]

/-- C1 witness: a one-entry problem whose volume oracle always reports the
target volume 2 = 0.5*4; the sub-solve returns normally after one bisection
pass, with 0 = |2 - 2| within the acceptable tolerance 0.4. -/
theorem computeUpdatedTopology_volume_enforced_witness :
    |(2 : ℚ) - 1 / 2 * 4| ≤ 1 / 10 * 4 ∧ (2 : ℚ) = (fun _ : List ℚ => (2 : ℚ)) [3 / 10] :=
  (computeUpdatedTopology_volume_enforced (fun q => q) (fun _ => 2) [1] [-1] [1 / 2]
      (1 / 5) 0 1 (1 / 2) 4 (1 / 10) (1 / 10) 3 false).1 [3 / 10] 2
    (by norm_num [computeUpdatedTopology, ocSearch, bisectLoop, bisectPass, updateTopo,
      updateEntry, abs_of_nonneg, abs_of_neg])

end ATO
